import Mathlib

/-!
Verification of the layout engine of `abootimg` (Android boot image tool).

The definitions below are a shallow embedding of `src/abootimg.c`:

* machine `unsigned` values are `Nat` with explicit reduction modulo `2^32`
  wherever the C computation can wrap;
* the fixed-size `boot_img_hdr` record is the structure `BootImgHdr`, with
  the text fields and the `id` digest kept as byte lists;
* the backing file (or block device) is a `Container`: a declared byte size
  plus a total byte-content function;
* fallible operations return `Except`.
-/

/-- Wordsize modulus for the C `unsigned` (32-bit) arithmetic. -/
def U32 : Nat := 2 ^ 32

/-- Modelled from the spec: the 8-byte magic sentinel of the container format
(`bootimg.h` is not under `src/`); the bytes of the tag, as used by
`check_boot_img_header` via `strncmp(magic, BOOT_MAGIC, BOOT_MAGIC_SIZE)`. -/
def BOOT_MAGIC : List Nat := [65, 78, 68, 82, 79, 73, 68, 33]

/-- Modelled from the spec: fixed capacity of the `name` text field
(`bootimg.h` is not under `src/`; the standard Android capacity is 16). -/
def BOOT_NAME_SIZE : Nat := 16

/-- Modelled from the spec: fixed capacity of the `cmdline` text field
(`bootimg.h` is not under `src/`; the standard Android capacity is 512). -/
def BOOT_ARGS_SIZE : Nat := 512

/-- Modelled from the spec: fixed capacity of the `extra_cmdline` text field
(`bootimg.h` is not under `src/`; the standard Android capacity is 1024). -/
def BOOT_EXTRA_ARGS_SIZE : Nat := 1024

/-- Modelled from the spec: byte size of the encoded fixed-layout header
(the spec table in section 6: 8 magic + 10 32-bit words + 16 name +
512 cmdline + 32 id + 1024 extra_cmdline = 1632 bytes). -/
def HEADER_BYTES : Nat := 1632

/-- The `boot_img_hdr` record (field for field as in the spec's section 6
table; numeric fields are 32-bit unsigned, text and id fields byte arrays). -/
structure BootImgHdr where
  magic : List Nat
  kernel_size : Nat
  kernel_addr : Nat
  ramdisk_size : Nat
  ramdisk_addr : Nat
  second_size : Nat
  second_addr : Nat
  tags_addr : Nat
  page_size : Nat
  dt_size : Nat
  reserved : Nat
  name : List Nat
  cmdline : List Nat
  id : List Nat
  extra_cmdline : List Nat
deriving Repr, DecidableEq

/-- Embedding of `padding_size` (src/abootimg.c:93-98):
`delta = image_size & (page_size - 1); return delta == 0 ? 0 : page_size - delta`. -/
def padding_size (image_size page_size : Nat) : Nat :=
  let delta := image_size &&& (page_size - 1)
  if delta = 0 then 0 else page_size - delta

/-- The page-count expression `(size + page_size - 1) / page_size` used
throughout src/abootimg.c (lines 335-338, 614, 625, 636-637, 648-651,
675-677), read in exact natural-number arithmetic. -/
def pages (s p : Nat) : Nat := (s + p - 1) / p

/-- The same page-count expression as the C program actually computes it:
the sum `size + page_size - 1` is a 32-bit `unsigned` expression, so it is
reduced modulo `2^32` before the division. -/
def pages32 (s p : Nat) : Nat := ((s + p - 1) % U32) / p

/-- 32-bit unsigned product, as computed by the C expressions
`(1+n)*page_size`, `(1+n+m)*page_size`, ... -/
def mul32 (a b : Nat) : Nat := (a * b) % U32

/-- Total container size as computed by the C code (src/abootimg.c:335-340
and 648-652): `(1+n+m+o+p)*page_size` in 32-bit unsigned arithmetic. -/
def total_size32 (h : BootImgHdr) : Nat :=
  mul32 (1 + pages32 h.kernel_size h.page_size + pages32 h.ramdisk_size h.page_size
      + pages32 h.second_size h.page_size + pages32 h.dt_size h.page_size) h.page_size

/-- Modelled from the spec (section 4.2): the total size by exact (ceiling)
arithmetic, `(1 + pages(kernel) + pages(ramdisk) + pages(second) + pages(dt))
* page_size`, with no 32-bit reduction.  This is the spec-side definition C1
and C10 compare against the code's `total_size32`. -/
def total_size_spec (h : BootImgHdr) : Nat :=
  (1 + pages h.kernel_size h.page_size + pages h.ramdisk_size h.page_size
      + pages h.second_size h.page_size + pages h.dt_size h.page_size) * h.page_size

/-- Kernel section offset (src/abootimg.c:605): `koffset = page_size`. -/
def koffset (h : BootImgHdr) : Nat := h.page_size

/-- Ramdisk section offset as the code computes it (src/abootimg.c:614-615):
`(1+n)*page_size` with `n` the kernel page count, in 32-bit arithmetic. -/
def roffset32 (h : BootImgHdr) : Nat :=
  mul32 (1 + pages32 h.kernel_size h.page_size) h.page_size

/-- Second-stage section offset as the code computes it
(src/abootimg.c:625-626): `(1+n+m)*page_size` in 32-bit arithmetic. -/
def soffset32 (h : BootImgHdr) : Nat :=
  mul32 (1 + pages32 h.kernel_size h.page_size + pages32 h.ramdisk_size h.page_size)
    h.page_size

/-- Device-tree section offset as the code computes it
(src/abootimg.c:636-638): `(1+n+m+o)*page_size` in 32-bit arithmetic. -/
def dtoffset32 (h : BootImgHdr) : Nat :=
  mul32 (1 + pages32 h.kernel_size h.page_size + pages32 h.ramdisk_size h.page_size
      + pages32 h.second_size h.page_size) h.page_size

/-- Embedding of `check_boot_img_header` (src/abootimg.c:296-348) as the
acceptance predicate: `true` means the function returns 0 (container
accepted).  The fatal checks are, in source order: magic comparison,
non-zero kernel_size, non-zero ramdisk_size, non-zero page_size, and the
computed total size not exceeding the backing size.  The source lines
319-333 only print warnings (zero dt_size, empty name/cmdline) and never
return 1, so they do not appear in the acceptance value. -/
def check_boot_img_header (h : BootImgHdr) (imgSize : Nat) : Bool :=
  if h.magic ≠ BOOT_MAGIC then false
  else if h.kernel_size = 0 then false
  else if h.ramdisk_size = 0 then false
  else if h.page_size = 0 then false
  else if total_size32 h > imgSize then false
  else true

/-- A backing file or block device: its declared byte size (`img->size`,
set from `st_size` or the block-device capacity in `read_header`) and its
byte contents. -/
structure Container where
  size : Nat
  data : Nat → Nat

/-- The bytes of the byte range `[off, off + len)` of a container: the raw
range observation used both to state byte-identity of sections and, behind
the in-range guard of `slurp_section` below, to model successful reads. -/
def readSec (c : Container) (off len : Nat) : List Nat :=
  (List.range len).map (fun i => c.data (off + i))

/-- Overwrite the byte range `[off, off + bs.length)` of a content function,
the effect of one `fseek`+`fwrite` pair on the stream. -/
def writeBytes (f : Nat → Nat) (off : Nat) (bs : List Nat) : Nat → Nat :=
  fun i => if off ≤ i ∧ i < off + bs.length then bs.getD (i - off) 0 else f i

/-- The four in-memory payload buffers of `t_abootimg` (src/abootimg.c:84-87).
In the update path `kernel` and `ramdisk` are always populated; `second` and
`devtree` stay `none` when the corresponding pointer stays NULL. -/
structure Sections where
  kernel : List Nat
  ramdisk : List Nat
  second : Option (List Nat)
  devtree : Option (List Nat)
deriving Repr, DecidableEq

/-- Bytes behind a possibly-NULL section pointer. -/
def optBytes : Option (List Nat) → List Nat
  | some b => b
  | none => []

/-- Replacement payloads supplied on the command line
(`kernel_fname` / `ramdisk_fname` / `second_fname` / `devtree_fname`
being non-NULL corresponds to `some` replacement bytes). -/
structure UpdateArgs where
  kernel : Option (List Nat)
  ramdisk : Option (List Nat)
  second : Option (List Nat)
  devtree : Option (List Nat)

/-- Errors of the update path.  `ReadOutOfRange` stands for the aborts of
`slurp_section` when `fread` cannot deliver the requested bytes
(src/abootimg.c:585-589). -/
inductive UpdErr where
  | PageSizeNull
  | ImageTooLarge
  | ReadOutOfRange
deriving Repr, DecidableEq

deriving instance DecidableEq for Except

/-- Embedding of `slurp_section` (src/abootimg.c:577-592): seek to `off` and
`fread` one item of `size` bytes.  The read succeeds exactly when the item is
non-empty and lies within the backing size; otherwise `fread` returns short
(or reads nothing) and the program aborts (lines 585-589), modelled as the
`ReadOutOfRange` error. -/
def slurp_section (c : Container) (off size : Nat) : Except UpdErr (List Nat) :=
  if 0 < size ∧ off + size ≤ c.size then .ok (readSec c off size)
  else .error .ReadOutOfRange

/-- The guarded slurp of an optional section, as in
`else if (img->header.second_size) img->second = slurp_section(...)`
(src/abootimg.c:632-634 and 644-646): when the stored size is non-zero the
section is slurped (aborting the run if the read fails), otherwise the
buffer pointer stays NULL. -/
def slurp_optional (c : Container) (off size : Nat) :
    Except UpdErr (Option (List Nat)) :=
  if size ≠ 0 then
    match slurp_section c off size with
    | .error e => .error e
    | .ok b => .ok (some b)
  else .ok none

/-- Embedding of `update_images` (src/abootimg.c:594-658).  Faithful to the
source ordering: `n` uses the kernel size read at entry (line 614), `m` uses
the possibly replaced ramdisk size (lines 619, 625), `o` uses the possibly
replaced second-stage size (lines 630, 636); sections that are not replaced
are slurped from the open container at the offsets just computed (lines 611,
622, 633, 645), and a failing slurp aborts the run there, before anything
else happens (slurp_section, lines 585-589).  After all replacements the
total size is recomputed from the updated header fields (lines 648-652); a
zero `img->size` is set to it, and a set `img->size` smaller than it aborts
with the image-too-large error (lines 654-657). -/
def update_images (c : Container) (h : BootImgHdr) (a : UpdateArgs) :
    Except UpdErr (BootImgHdr × Sections × Nat) :=
  let psize := h.page_size
  if psize = 0 then .error .PageSizeNull else
  let ksize := h.kernel_size
  let rsize0 := h.ramdisk_size
  let ssize0 := h.second_size
  let dtsize0 := h.dt_size
  let kernelE : Except UpdErr (List Nat) := match a.kernel with
    | some b => .ok b
    | none => slurp_section c psize ksize
  match kernelE with
  | .error e => .error e
  | .ok kernel =>
    let ksize2 := match a.kernel with
      | some b => b.length
      | none => ksize
    let n := pages32 ksize psize
    let roffset := mul32 (1 + n) psize
    let ramdiskE : Except UpdErr (List Nat) := match a.ramdisk with
      | some b => .ok b
      | none => slurp_section c roffset rsize0
    match ramdiskE with
    | .error e => .error e
    | .ok ramdisk =>
      let rsize := match a.ramdisk with
        | some b => b.length
        | none => rsize0
      let m := pages32 rsize psize
      let soffset := mul32 (1 + n + m) psize
      let secondE : Except UpdErr (Option (List Nat)) := match a.second with
        | some b => .ok (some b)
        | none => slurp_optional c soffset ssize0
      match secondE with
      | .error e => .error e
      | .ok second =>
        let ssize := match a.second with
          | some b => b.length
          | none => ssize0
        let o := pages32 ssize psize
        let dtoffset := mul32 (1 + n + m + o) psize
        let devtreeE : Except UpdErr (Option (List Nat)) := match a.devtree with
          | some b => .ok (some b)
          | none => slurp_optional c dtoffset dtsize0
        match devtreeE with
        | .error e => .error e
        | .ok devtree =>
          let dtsize := match a.devtree with
            | some b => b.length
            | none => dtsize0
          let h2 : BootImgHdr :=
            { h with kernel_size := ksize2, ramdisk_size := rsize,
                     second_size := ssize, dt_size := dtsize }
          let total := total_size32 h2
          if c.size = 0 then .ok (h2, ⟨kernel, ramdisk, second, devtree⟩, total)
          else if total > c.size then .error .ImageTooLarge
          else .ok (h2, ⟨kernel, ramdisk, second, devtree⟩, c.size)

/-- The header a run of `update_images` produces: each size field becomes
the length of its replacement payload when one is supplied, and is kept
otherwise (src/abootimg.c:609, 620, 631, 643). -/
def updated_header (h : BootImgHdr) (a : UpdateArgs) : BootImgHdr :=
  { h with
    kernel_size := match a.kernel with
      | some b => b.length
      | none => h.kernel_size,
    ramdisk_size := match a.ramdisk with
      | some b => b.length
      | none => h.ramdisk_size,
    second_size := match a.second with
      | some b => b.length
      | none => h.second_size,
    dt_size := match a.devtree with
      | some b => b.length
      | none => h.dt_size }

/-- Little-endian byte decomposition of a 32-bit field, the bytes that
`SHA_update(&ctx, &field, sizeof(field))` feeds on a little-endian host. -/
def le32 (x : Nat) : List Nat :=
  [x % 256, x / 2 ^ 8 % 256, x / 2 ^ 16 % 256, x / 2 ^ 24 % 256]

/-- SHA context: the bytes fed so far (the hash primitive itself is an
external collaborator; the context accumulates its input stream). -/
def SHA_init : List Nat := []

/-- One `SHA_update(&ctx, data, len)` call: append the fed bytes. -/
def SHA_update (ctx data : List Nat) : List Nat := ctx ++ data

/-- The digest input stream accumulated by the `SHA_update` sequence of
`write_bootimg` (src/abootimg.c:682-693), call for call in source order. -/
def sha_stream (h : BootImgHdr) (s : Sections) : List Nat :=
  let ctx := SHA_init
  let ctx := SHA_update ctx s.kernel
  let ctx := SHA_update ctx (le32 h.kernel_size)
  let ctx := SHA_update ctx s.ramdisk
  let ctx := SHA_update ctx (le32 h.ramdisk_size)
  let ctx := SHA_update ctx (optBytes s.second)
  let ctx := SHA_update ctx (le32 h.second_size)
  match s.devtree with
  | some dt => SHA_update (SHA_update ctx dt) (le32 h.dt_size)
  | none => ctx

/-- Embedding of the digest-to-id copy (src/abootimg.c:696):
`memcpy(id, sha, SHA_DIGEST_SIZE > sizeof(id) ? sizeof(id) : SHA_DIGEST_SIZE)`
with `sizeof(id) = 32` bytes; bytes of `id` beyond the copied count keep
their previous values. -/
def copy_digest (old dig : List Nat) : List Nat :=
  let cnt := if dig.length > 32 then 32 else dig.length
  dig.take cnt ++ old.drop cnt

/-- Byte encoding of the header record, in the fixed field order of the
spec's section 6 table (the in-memory `boot_img_hdr` layout written by
`fwrite(&img->header, sizeof(img->header), 1, ...)`, little-endian host). -/
def encode_header (h : BootImgHdr) : List Nat :=
  h.magic ++ le32 h.kernel_size ++ le32 h.kernel_addr
    ++ le32 h.ramdisk_size ++ le32 h.ramdisk_addr
    ++ le32 h.second_size ++ le32 h.second_addr
    ++ le32 h.tags_addr ++ le32 h.page_size ++ le32 h.dt_size ++ le32 h.reserved
    ++ h.name ++ h.cmdline ++ h.id ++ h.extra_cmdline

/-- Embedding of `write_bootimg` (src/abootimg.c:662-770), parametric in the
hash primitive `hash` (the external `SHA_final` on the accumulated stream).
Step for step as the source: recompute the digest and store it in the id
field (682-696); write the header at offset 0 followed by
`page_size - sizeof(header)` zero padding bytes (698-704); write the kernel
at the position after that padding plus its page padding (706-717); seek to
`(1+n)*page_size` and write the ramdisk plus padding (719-733); if
`second_size` is non-zero, seek to `(1+n+m)*page_size` and write the second
stage plus padding (735-749); if `dt_size` is non-zero, seek to
`(1+n+m+o)*page_size` and write the device tree plus padding (751-765);
finally `ftruncate` the stream to `img->size` (767).  `fwrite(buf, size, 1)`
writes `size` bytes, so each payload write takes `size` bytes of its buffer.
Returns the header as left in memory and the resulting container. -/
def write_bootimg (hash : List Nat → List Nat) (h : BootImgHdr) (s : Sections)
    (size : Nat) (f0 : Nat → Nat) : BootImgHdr × Container :=
  let psize := h.page_size
  let n := pages32 h.kernel_size psize
  let m := pages32 h.ramdisk_size psize
  let o := pages32 h.second_size psize
  let sha := hash (sha_stream h s)
  let h' := { h with id := copy_digest h.id sha }
  let f := writeBytes f0 0 (encode_header h')
  let hdrPad := (psize + U32 - HEADER_BYTES) % U32
  let f := writeBytes f HEADER_BYTES (List.replicate hdrPad 0)
  let koff := HEADER_BYTES + hdrPad
  let f := writeBytes f koff (s.kernel.take h.kernel_size)
  let kpad := padding_size h.kernel_size psize
  let f := if kpad > 0 then writeBytes f (koff + h.kernel_size) (List.replicate kpad 0) else f
  let roff := mul32 (1 + n) psize
  let f := writeBytes f roff (s.ramdisk.take h.ramdisk_size)
  let rpad := padding_size h.ramdisk_size psize
  let f := if rpad > 0 then writeBytes f (roff + h.ramdisk_size) (List.replicate rpad 0) else f
  let f := if h.second_size ≠ 0 then
      let soff := mul32 (1 + n + m) psize
      let f := writeBytes f soff ((optBytes s.second).take h.second_size)
      let spad := padding_size h.second_size psize
      if spad > 0 then writeBytes f (soff + h.second_size) (List.replicate spad 0) else f
    else f
  let f := if h.dt_size ≠ 0 then
      let dtoff := mul32 (1 + n + m + o) psize
      let f := writeBytes f dtoff ((optBytes s.devtree).take h.dt_size)
      let dpad := padding_size h.dt_size psize
      if dpad > 0 then writeBytes f (dtoff + h.dt_size) (List.replicate dpad 0) else f
    else f
  (h', ⟨size, fun i => if i < size then f i else 0⟩)

/-- The update command after header parsing and validation (src main,
lines 1050-1056): `update_images` followed by `write_bootimg`.  On an
`update_images` error the process aborts before `write_bootimg` runs, so
the backing container is returned unchanged together with the error. -/
def update_run (hash : List Nat → List Nat) (c : Container) (h : BootImgHdr)
    (a : UpdateArgs) : BootImgHdr × Container × Option UpdErr :=
  match update_images c h a with
  | .error e => (h, c, some e)
  | .ok (h1, secs, newsize) =>
      let r := write_bootimg hash h1 secs newsize c.data
      (r.1, r.2, none)

/-- Errors of the header field-edit operation. -/
inductive CfgErr where
  | FieldTooLong
deriving Repr, DecidableEq

/-- Embedding of the `cmdline` branch of `update_header_entry`
(src/abootimg.c:456-462): a value of length `>= BOOT_ARGS_SIZE` is a fatal
error; otherwise `memset(cmdline, 0, BOOT_ARGS_SIZE)` followed by `strcpy`
stores the value in full, zero-filled to capacity. -/
def set_cmdline (h : BootImgHdr) (v : List Nat) : Except CfgErr BootImgHdr :=
  if v.length ≥ BOOT_ARGS_SIZE then .error .FieldTooLong
  else .ok { h with cmdline := v ++ List.replicate (BOOT_ARGS_SIZE - v.length) 0 }

/-- Embedding of the `extra_cmdline` branch of `update_header_entry`
(src/abootimg.c:463-469).  As in the source, the length check at line 465
compares against `BOOT_ARGS_SIZE` (not `BOOT_EXTRA_ARGS_SIZE`), while the
abort message and the `memset`/`strcpy` use `BOOT_EXTRA_ARGS_SIZE`. -/
def set_extra_cmdline (h : BootImgHdr) (v : List Nat) : Except CfgErr BootImgHdr :=
  if v.length ≥ BOOT_ARGS_SIZE then .error .FieldTooLong
  else .ok { h with extra_cmdline := v ++ List.replicate (BOOT_EXTRA_ARGS_SIZE - v.length) 0 }

/-- Embedding of the `name` branch of `update_header_entry`
(src/abootimg.c:470-473): `strncpy(name, value, BOOT_NAME_SIZE)` (copy at
most the capacity, zero-fill when the value is shorter) followed by forcing
a terminator at the last byte. -/
def set_name (h : BootImgHdr) (v : List Nat) : BootImgHdr :=
  { h with name :=
      (v.take BOOT_NAME_SIZE
        ++ List.replicate (BOOT_NAME_SIZE - v.length) 0).set (BOOT_NAME_SIZE - 1) 0 }

/-- Zero-filled byte list. -/
def zeroes (n : Nat) : List Nat := List.replicate n 0

/-- Sample well-formed header: the spec's running example
(page_size 2048, kernel_size 5000, ramdisk_size 3000, no second stage or
device tree). -/
def hEx : BootImgHdr :=
  { magic := BOOT_MAGIC, kernel_size := 5000, kernel_addr := 0,
    ramdisk_size := 3000, ramdisk_addr := 0, second_size := 0, second_addr := 0,
    tags_addr := 0, page_size := 2048, dt_size := 0, reserved := 0,
    name := zeroes 16, cmdline := zeroes 512, id := zeroes 32,
    extra_cmdline := zeroes 1024 }

/-- Header whose page-rounded total overflows 32 bits:
kernel_size = 2048 * 2097151, ramdisk_size = 2048, page_size = 2048, so the
exact total is (1 + 2097151 + 1) * 2048 = 2^32 + 2048. -/
def hOverflow : BootImgHdr :=
  { hEx with kernel_size := 4294965248, ramdisk_size := 2048 }

/-- Header with a non-zero page_size (3) that is not a power of two. -/
def hPow3 : BootImgHdr :=
  { hEx with page_size := 3, kernel_size := 1, ramdisk_size := 1 }

/-- Header whose stored id digest is all-ones. -/
def hIdOnes : BootImgHdr := { hEx with id := List.replicate 32 1 }

/-- A concrete 20-byte hash primitive (a SHA-1-sized digest). -/
def hash20 : List Nat → List Nat := fun _ => List.replicate 20 2

/-- A concrete 20-byte hash primitive returning zero bytes. -/
def hashC : List Nat → List Nat := fun _ => List.replicate 20 0

/-- Empty section store. -/
def secEmpty : Sections := ⟨[], [], none, none⟩

/-- Zero content function. -/
def fzero : Nat → Nat := fun _ => 0

/-- Valid container for the update experiments: page_size 2048,
one-page kernel (100 bytes, filled with 1), two-page ramdisk (4096 bytes,
filled with 7), one-page second stage (16 bytes, filled with 9), no device
tree; backing size (1+1+2+1)*2048 = 10240 bytes. -/
def c2hdr : BootImgHdr :=
  { hEx with kernel_size := 100, ramdisk_size := 4096, second_size := 16 }

/-- Byte contents of the container described by `c2hdr`: the second stage
(value 9) occupies `[8192, 8208)`, the ramdisk (value 7) occupies
`[4096, 8192)`, everything else is 1. -/
def c2data : Nat → Nat := fun i =>
  if 8192 ≤ i ∧ i < 8208 then 9
  else if 4096 ≤ i ∧ i < 8192 then 7
  else 1

/-- The container backing `c2hdr`. -/
def c2orig : Container := ⟨10240, c2data⟩

/-- Update arguments replacing only the ramdisk with 100 bytes of value 5
(one page instead of the original two). -/
def c2args : UpdateArgs := ⟨none, some (List.replicate 100 5), none, none⟩

/-- Small fixed-capacity container for the too-large witness: page_size 4,
one-page kernel and one-page ramdisk (2 bytes each), declared backing size
16 bytes, content all 1. -/
def c4hdr : BootImgHdr :=
  { hEx with page_size := 4, kernel_size := 2, ramdisk_size := 2 }

/-- The 16-byte container backing `c4hdr`. -/
def c4orig : Container := ⟨16, fun _ => 1⟩

/-- Update arguments replacing only the ramdisk with 20 bytes (5 pages of
4 bytes), making the updated total (1+1+5)*4 = 28 exceed the 16-byte
backing. -/
def c4args : UpdateArgs := ⟨none, some (List.replicate 20 5), none, none⟩

/-- Valid container carrying a preserved second stage, for the C4
counterexample: page_size 4, kernel_size 2, ramdisk_size 2, second_size 2,
backing (1+1+1+1)*4 = 16 bytes, content all 1. -/
def c4bhdr : BootImgHdr :=
  { hEx with page_size := 4, kernel_size := 2, ramdisk_size := 2, second_size := 2 }

/-- The 16-byte container backing `c4bhdr`. -/
def c4borig : Container := ⟨16, fun _ => 1⟩

/-- Update arguments replacing only the ramdisk of `c4borig` with 40 bytes
(10 pages of 4 bytes): the updated total (1+1+10+1)*4 = 52 exceeds the
16-byte backing, and the preserved second stage is slurped at the new-layout
offset (1+1+10)*4 = 48, past the end of the 16-byte file. -/
def c4bargs : UpdateArgs := ⟨none, some (List.replicate 40 5), none, none⟩

/-! Helper lemmas about the page-rounding arithmetic. -/

theorem pages_mul_ge (s p : Nat) (hp : 0 < p) : s ≤ pages s p * p := by
  unfold pages
  have h1 := Nat.div_add_mod (s + p - 1) p
  have h2 := Nat.mod_lt (s + p - 1) hp
  set q := (s + p - 1) / p with hq
  set r := (s + p - 1) % p with hr
  have h4 : q * p = p * q := Nat.mul_comm q p
  omega

theorem pages_mul_lt (s p : Nat) (hp : 0 < p) : pages s p * p < s + p := by
  unfold pages
  have h1 := Nat.div_add_mod (s + p - 1) p
  have h2 := Nat.mod_lt (s + p - 1) hp
  set q := (s + p - 1) / p with hq
  set r := (s + p - 1) % p with hr
  have h4 : q * p = p * q := Nat.mul_comm q p
  omega

theorem pages_eq_ceil (s p : Nat) (hp : 0 < p) :
    pages s p = s / p + if s % p = 0 then 0 else 1 := by
  have h1 := Nat.div_add_mod s p
  have h2 := Nat.mod_lt s hp
  unfold pages
  by_cases h0 : s % p = 0
  · have hs : s + p - 1 = p * (s / p) + (p - 1) := by omega
    rw [hs, Nat.mul_add_div hp, if_pos h0]
    rw [Nat.div_eq_of_lt (show p - 1 < p by omega)]
  · have hpe : p * (s / p + 1) = p * (s / p) + p := by ring
    have hs : s + p - 1 = p * (s / p + 1) + (s % p - 1) := by omega
    rw [hs, Nat.mul_add_div hp, if_neg h0]
    rw [Nat.div_eq_of_lt (show s % p - 1 < p by omega)]

theorem padding_eq_mod (s p k : Nat) (hp : p = 2 ^ k) :
    padding_size s p = if s % p = 0 then 0 else p - s % p := by
  unfold padding_size
  simp only [hp, Nat.and_pow_two_sub_one_eq_mod]

theorem pages32_eq_pages (s p : Nat) (hb : s + p - 1 < U32) :
    pages32 s p = pages s p := by
  unfold pages32 pages
  rw [Nat.mod_eq_of_lt hb]

/-- When the exact page-rounded total fits in 32 bits, every 32-bit offset
and total expression of the code coincides with the exact one. -/
theorem layout32_exact (ks rs ss ds p : Nat) (hp : 0 < p)
    (hov : (1 + pages ks p + pages rs p + pages ss p + pages ds p) * p < U32) :
    mul32 (1 + pages32 ks p) p = (1 + pages ks p) * p ∧
    mul32 (1 + pages32 ks p + pages32 rs p) p
      = (1 + pages ks p + pages rs p) * p ∧
    mul32 (1 + pages32 ks p + pages32 rs p + pages32 ss p) p
      = (1 + pages ks p + pages rs p + pages ss p) * p ∧
    mul32 (1 + pages32 ks p + pages32 rs p + pages32 ss p + pages32 ds p) p
      = (1 + pages ks p + pages rs p + pages ss p + pages ds p) * p := by
  have hA := pages_mul_ge ks p hp
  have hB := pages_mul_ge rs p hp
  have hC := pages_mul_ge ss p hp
  have hD := pages_mul_ge ds p hp
  have m1 : (1 + pages ks p) * p
      ≤ (1 + pages ks p + pages rs p + pages ss p + pages ds p) * p :=
    Nat.mul_le_mul_right p (by omega)
  have m2 : (1 + pages rs p) * p
      ≤ (1 + pages ks p + pages rs p + pages ss p + pages ds p) * p :=
    Nat.mul_le_mul_right p (by omega)
  have m3 : (1 + pages ss p) * p
      ≤ (1 + pages ks p + pages rs p + pages ss p + pages ds p) * p :=
    Nat.mul_le_mul_right p (by omega)
  have m4 : (1 + pages ds p) * p
      ≤ (1 + pages ks p + pages rs p + pages ss p + pages ds p) * p :=
    Nat.mul_le_mul_right p (by omega)
  have m5 : (1 + pages ks p + pages rs p) * p
      ≤ (1 + pages ks p + pages rs p + pages ss p + pages ds p) * p :=
    Nat.mul_le_mul_right p (by omega)
  have m6 : (1 + pages ks p + pages rs p + pages ss p) * p
      ≤ (1 + pages ks p + pages rs p + pages ss p + pages ds p) * p :=
    Nat.mul_le_mul_right p (by omega)
  have e1 : (1 + pages ks p) * p = p + pages ks p * p := by ring
  have e2 : (1 + pages rs p) * p = p + pages rs p * p := by ring
  have e3 : (1 + pages ss p) * p = p + pages ss p * p := by ring
  have e4 : (1 + pages ds p) * p = p + pages ds p * p := by ring
  have bk : ks + p - 1 < U32 := by omega
  have br : rs + p - 1 < U32 := by omega
  have bs2 : ss + p - 1 < U32 := by omega
  have bd : ds + p - 1 < U32 := by omega
  unfold mul32
  rw [pages32_eq_pages ks p bk, pages32_eq_pages rs p br,
    pages32_eq_pages ss p bs2, pages32_eq_pages ds p bd]
  exact ⟨Nat.mod_eq_of_lt (by omega), Nat.mod_eq_of_lt (by omega),
    Nat.mod_eq_of_lt (by omega), Nat.mod_eq_of_lt (by omega)⟩

/-- C1 (counterexample): the claim's exact-arithmetic layout formulas fail
on the code for `hOverflow`, a header with power-of-two page_size 2048
whose page-rounded total overflows 32 bits: the code computes ramdisk
offset 0 and total size 2048, while the claimed formulas give 2^32 and
2^32 + 2048. -/
theorem layout_offsets_exact_counterexample :
    (∃ k, hOverflow.page_size = 2 ^ k) ∧
    roffset32 hOverflow
      ≠ (1 + pages hOverflow.kernel_size hOverflow.page_size) * hOverflow.page_size ∧
    total_size32 hOverflow ≠ total_size_spec hOverflow ∧
    roffset32 hOverflow = 0 ∧ total_size32 hOverflow = 2048 ∧
    total_size_spec hOverflow = 4294969344 :=
  ⟨⟨11, by decide⟩, by decide, by decide, by decide, by decide, by decide⟩

/-- C1 (amended): for every header with a power-of-two page_size whose
exact page-rounded total `(1 + pages(kernel) + pages(ramdisk) +
pages(second) + pages(dt)) * page_size` fits in 32 bits, the layout engine
computes the section offsets and total size by cumulative page rounding in
canonical order: kernel at page_size, ramdisk at (1+pages(kernel))*page_size,
second stage at (1+pages(kernel)+pages(ramdisk))*page_size, device tree at
(1+pages(kernel)+pages(ramdisk)+pages(second))*page_size, and total_size =
(1+pages(kernel)+pages(ramdisk)+pages(second)+pages(dt))*page_size. -/
theorem layout_offsets_exact (h : BootImgHdr) (hpow : ∃ k, h.page_size = 2 ^ k)
    (hov : total_size_spec h < U32) :
    koffset h = h.page_size ∧
    roffset32 h = (1 + pages h.kernel_size h.page_size) * h.page_size ∧
    soffset32 h = (1 + pages h.kernel_size h.page_size
      + pages h.ramdisk_size h.page_size) * h.page_size ∧
    dtoffset32 h = (1 + pages h.kernel_size h.page_size
      + pages h.ramdisk_size h.page_size + pages h.second_size h.page_size)
        * h.page_size ∧
    total_size32 h = total_size_spec h := by
  obtain ⟨k, hk⟩ := hpow
  have hp : 0 < h.page_size := by rw [hk]; exact Nat.pow_pos (by norm_num)
  have hov' : (1 + pages h.kernel_size h.page_size + pages h.ramdisk_size h.page_size
      + pages h.second_size h.page_size + pages h.dt_size h.page_size)
        * h.page_size < U32 := hov
  have main := layout32_exact h.kernel_size h.ramdisk_size h.second_size h.dt_size
    h.page_size hp hov'
  exact ⟨rfl, main.1, main.2.1, main.2.2.1, main.2.2.2⟩

/-- C1 (witness): the amended theorem applied to the spec's example
(page_size 2048, kernel_size 5000, ramdisk_size 3000): the ramdisk offset
is 8192 and the total size is 12288. -/
theorem layout_offsets_exact_witness :
    ((∃ k, hEx.page_size = 2 ^ k) ∧ total_size_spec hEx < U32) ∧
    (koffset hEx = hEx.page_size ∧
     roffset32 hEx = (1 + pages hEx.kernel_size hEx.page_size) * hEx.page_size ∧
     soffset32 hEx = (1 + pages hEx.kernel_size hEx.page_size
       + pages hEx.ramdisk_size hEx.page_size) * hEx.page_size ∧
     dtoffset32 hEx = (1 + pages hEx.kernel_size hEx.page_size
       + pages hEx.ramdisk_size hEx.page_size + pages hEx.second_size hEx.page_size)
         * hEx.page_size ∧
     total_size32 hEx = total_size_spec hEx) ∧
    roffset32 hEx = 8192 ∧ total_size32 hEx = 12288 :=
  ⟨⟨⟨11, by decide⟩, by decide⟩,
   layout_offsets_exact hEx ⟨11, by decide⟩ (by decide),
   by decide, by decide⟩

/-- C6: for every power-of-two page_size and every size, the page rounding
is tight (`pages(size)*page_size >= size` and
`pages(size)*page_size - page_size < size` over the integers), `pages` is
the ceiling division, and `padding_size` returns
`pages(size)*page_size - size`, which is 0 exactly when size is a multiple
of page_size and is always strictly less than page_size. -/
theorem pages_padding_tight (s p : Nat) (hpow : ∃ k, p = 2 ^ k) :
    pages s p = s ⌈/⌉ p ∧
    s ≤ pages s p * p ∧
    (pages s p * p : ℤ) - p < s ∧
    padding_size s p = pages s p * p - s ∧
    (padding_size s p = 0 ↔ p ∣ s) ∧
    padding_size s p < p := by
  obtain ⟨k, hk⟩ := hpow
  have hp : 0 < p := by rw [hk]; exact Nat.pow_pos (by norm_num)
  have hge := pages_mul_ge s p hp
  have hlt := pages_mul_lt s p hp
  have h3 := pages_eq_ceil s p hp
  have h4 := padding_eq_mod s p k hk
  have h1 := Nat.div_add_mod s p
  have h2 := Nat.mod_lt s hp
  have h5 : p ∣ s ↔ s % p = 0 := Nat.dvd_iff_mod_eq_zero
  refine ⟨rfl, hge, by zify at hlt ⊢; omega, ?_, ?_, ?_⟩
  · by_cases h0 : s % p = 0
    · rw [if_pos h0] at h3 h4
      have h6 : pages s p * p = p * (s / p) := by rw [h3]; ring
      omega
    · rw [if_neg h0] at h3 h4
      have h6 : pages s p * p = p * (s / p) + p := by rw [h3]; ring
      omega
  · rw [h5]
    by_cases h0 : s % p = 0
    · rw [if_pos h0] at h4
      omega
    · rw [if_neg h0] at h4
      omega
  · by_cases h0 : s % p = 0
    · rw [if_pos h0] at h4
      omega
    · rw [if_neg h0] at h4
      omega

/-- C6 (witness): the tight-rounding properties at size 5000 and page size
2048 (3 pages, 1144 bytes of padding). -/
theorem pages_padding_tight_witness :
    (∃ k, (2048 : Nat) = 2 ^ k) ∧
    (pages 5000 2048 = 5000 ⌈/⌉ 2048 ∧
     5000 ≤ pages 5000 2048 * 2048 ∧
     (pages 5000 2048 * 2048 : ℤ) - 2048 < 5000 ∧
     padding_size 5000 2048 = pages 5000 2048 * 2048 - 5000 ∧
     (padding_size 5000 2048 = 0 ↔ 2048 ∣ 5000) ∧
     padding_size 5000 2048 < 2048) ∧
    padding_size 5000 2048 = 1144 :=
  ⟨⟨11, by decide⟩, pages_padding_tight 5000 2048 ⟨11, by decide⟩, by decide⟩

/-- C3: the reader's validation accepts exactly when the magic equals the
sentinel byte-for-byte, kernel_size, ramdisk_size and page_size are
non-zero, and the computed total size does not exceed the backing size.
In particular a zero dt_size or empty text fields (which only trigger
warnings in the source, lines 319-333) never cause rejection, and a failed
fatal check rejects the container from the pure header and size alone,
before any section is accessed. -/
theorem check_accepts_iff (h : BootImgHdr) (sz : Nat) :
    check_boot_img_header h sz = true ↔
      (h.magic = BOOT_MAGIC ∧ h.kernel_size ≠ 0 ∧ h.ramdisk_size ≠ 0 ∧
       h.page_size ≠ 0 ∧ total_size32 h ≤ sz) := by
  unfold check_boot_img_header
  split_ifs <;> simp_all

/-- C7 (counterexample): the read-time validation accepts `hPow3`, a header
whose page_size is 3 - non-zero but not a power of two - so acceptance does
not imply a power-of-two page size. -/
theorem check_accepts_non_pow2_pagesize :
    check_boot_img_header hPow3 100 = true ∧ hPow3.page_size ≠ 0 ∧
    (∀ k : Nat, hPow3.page_size ≠ 2 ^ k) := by
  refine ⟨by decide, by decide, ?_⟩
  intro k
  show (3 : Nat) ≠ 2 ^ k
  intro heq
  rcases k with _ | m
  · exact absurd heq (by decide)
  · have h2 : (2 : Nat) ^ (m + 1) = 2 ^ m * 2 := pow_succ 2 m
    omega

/-- C7 (amended): every header accepted by the read-time validation has a
non-zero page_size; that is the only page-size constraint the validation
enforces (a non-zero page_size that is not a power of two is accepted, see
the counterexample). -/
theorem check_requires_nonzero_pagesize (h : BootImgHdr) (sz : Nat)
    (hacc : check_boot_img_header h sz = true) : h.page_size ≠ 0 := by
  unfold check_boot_img_header at hacc
  split_ifs at hacc
  simp_all

/-- C7 (witness): the amended theorem applied to the accepted header `hEx`. -/
theorem check_requires_nonzero_pagesize_witness :
    check_boot_img_header hEx 12288 = true ∧ hEx.page_size ≠ 0 :=
  ⟨by decide, check_requires_nonzero_pagesize hEx 12288 (by decide)⟩

/-- C5: on every write the digest input stream is exactly: kernel bytes,
kernel_size as raw little-endian bytes of the 32-bit field, ramdisk bytes,
ramdisk_size, second-stage bytes (fed even when zero-length, i.e. the empty
list when the buffer is absent), second_size, and - only if a device-tree
buffer is present - device-tree bytes followed by dt_size; and the id field
written by `write_bootimg` is recomputed from the hash of that stream,
never copied from the prior header. -/
theorem sha_digest_order (hash : List Nat → List Nat) (h : BootImgHdr)
    (s : Sections) (sz : Nat) (f : Nat → Nat) :
    sha_stream h s =
      s.kernel ++ le32 h.kernel_size ++ s.ramdisk ++ le32 h.ramdisk_size
        ++ optBytes s.second ++ le32 h.second_size
        ++ (match s.devtree with
            | some dt => dt ++ le32 h.dt_size
            | none => []) ∧
    (write_bootimg hash h s sz f).1.id = copy_digest h.id (hash (sha_stream h s)) := by
  constructor
  · rcases s with ⟨kb, rb, sb, db⟩
    cases db <;> simp [sha_stream, SHA_update, SHA_init, List.append_assoc]
  · rfl

/-- C8 (counterexample): with a 20-byte digest (shorter than the 32-byte id
field) and a prior header whose id is all-ones, the id bytes past the
digest length are not zero after the write: the code only truncates, it
never zero-pads. -/
theorem id_not_zero_padded :
    (hash20 (sha_stream hIdOnes secEmpty)).length < 32 ∧
    (write_bootimg hash20 hIdOnes secEmpty 0 fzero).1.id.drop 20
      ≠ List.replicate 12 0 ∧
    (write_bootimg hash20 hIdOnes secEmpty 0 fzero).1.id.drop 20
      = List.replicate 12 1 := by
  refine ⟨by decide, by decide, by decide⟩

/-- C8 (amended): on every write the header's id field receives the first
`min(32, digest length)` bytes of the finalized digest; when the digest is
shorter than the 32-byte id field the remaining id bytes keep their prior
values (they are not zeroed), and the id field length stays 32. -/
theorem id_digest_truncated (hash : List Nat → List Nat) (h : BootImgHdr)
    (s : Sections) (sz : Nat) (f : Nat → Nat) (hid : h.id.length = 32) :
    ((write_bootimg hash h s sz f).1.id).take (min 32 (hash (sha_stream h s)).length)
        = (hash (sha_stream h s)).take (min 32 (hash (sha_stream h s)).length) ∧
    ((write_bootimg hash h s sz f).1.id).drop (min 32 (hash (sha_stream h s)).length)
        = h.id.drop (min 32 (hash (sha_stream h s)).length) ∧
    ((write_bootimg hash h s sz f).1.id).length = 32 := by
  have hw : (write_bootimg hash h s sz f).1.id
      = copy_digest h.id (hash (sha_stream h s)) := rfl
  rw [hw]
  unfold copy_digest
  set L := (hash (sha_stream h s)).length with hL
  have hc : (if L > 32 then 32 else L) = min 32 L := by
    rw [Nat.min_def]; split_ifs <;> omega
  rw [hc]
  have hcnt : min 32 L ≤ L := Nat.min_le_right 32 L
  have ht : ((hash (sha_stream h s)).take (min 32 L)).length = min 32 L := by
    rw [List.length_take]; omega
  refine ⟨List.take_left' ht, List.drop_left' ht, ?_⟩
  rw [List.length_append, ht, List.length_drop, hid]
  omega

/-- C8 (witness): the amended theorem applied to the 20-byte hash `hash20`
and the all-ones-id header `hIdOnes`. -/
theorem id_digest_truncated_witness :
    hIdOnes.id.length = 32 ∧
    (((write_bootimg hash20 hIdOnes secEmpty 0 fzero).1.id).take
        (min 32 (hash20 (sha_stream hIdOnes secEmpty)).length)
      = (hash20 (sha_stream hIdOnes secEmpty)).take
        (min 32 (hash20 (sha_stream hIdOnes secEmpty)).length) ∧
     ((write_bootimg hash20 hIdOnes secEmpty 0 fzero).1.id).drop
        (min 32 (hash20 (sha_stream hIdOnes secEmpty)).length)
      = hIdOnes.id.drop (min 32 (hash20 (sha_stream hIdOnes secEmpty)).length) ∧
     ((write_bootimg hash20 hIdOnes secEmpty 0 fzero).1.id).length = 32) :=
  ⟨by decide, id_digest_truncated hash20 hIdOnes secEmpty 0 fzero (by decide)⟩

/-- C2 (code defect, evaluated at a failing input): on the valid container
`c2orig` (second stage of 16 bytes of value 9 at offset 8192, behind a
two-page ramdisk), an update that only replaces the ramdisk with a one-page
payload completes without error, but the rewritten container's second-stage
bytes (at its recomputed offset 6144) are the original container's bytes at
offset 6144 - old ramdisk content, value 7 - and not the original second
stage: `update_images` slurps the preserved section at the offset of the
NEW layout (src/abootimg.c:625-633) although the open container still has
the OLD layout. -/
theorem ramdisk_update_corrupts_second_stage :
    check_boot_img_header c2hdr c2orig.size = true ∧
    (update_run hashC c2orig c2hdr c2args).2.2 = none ∧
    (update_run hashC c2orig c2hdr c2args).1.second_size = c2hdr.second_size ∧
    soffset32 (update_run hashC c2orig c2hdr c2args).1 = 6144 ∧
    soffset32 c2hdr = 8192 ∧
    readSec (update_run hashC c2orig c2hdr c2args).2.1 6144 16
      ≠ readSec c2orig 8192 16 ∧
    readSec (update_run hashC c2orig c2hdr c2args).2.1 6144 16
      = readSec c2orig 6144 16 := by
  exact ⟨by decide, by decide, by decide, by decide, by decide, by decide, by decide⟩

/-- A failing `slurp_section` always aborts with the read error. -/
theorem slurp_section_error (c : Container) (off len : Nat) (e : UpdErr)
    (h : slurp_section c off len = Except.error e) : e = UpdErr.ReadOutOfRange := by
  unfold slurp_section at h
  split at h
  · simp at h
  · injection h with h2
    exact h2.symm

/-- A failing `slurp_optional` always aborts with the read error. -/
theorem slurp_optional_error (c : Container) (off len : Nat) (e : UpdErr)
    (h : slurp_optional c off len = Except.error e) : e = UpdErr.ReadOutOfRange := by
  unfold slurp_optional at h
  split at h
  · split at h
    · rename_i e2 heq
      injection h with h2
      exact h2 ▸ slurp_section_error _ _ _ _ heq
    · simp at h
  · simp at h

/-- Under a set (non-zero) declared size that the updated total exceeds,
`update_images` always fails: with the image-too-large error when every
preserved-section slurp is in range, and with the read error when one of
the slurps runs past the container. -/
theorem update_images_too_large (c : Container) (h : BootImgHdr) (a : UpdateArgs)
    (hp : h.page_size ≠ 0) (hsz : c.size ≠ 0)
    (htoobig : total_size32 (updated_header h a) > c.size) :
    update_images c h a = Except.error UpdErr.ImageTooLarge ∨
    update_images c h a = Except.error UpdErr.ReadOutOfRange := by
  rcases a with ⟨ak, ar, asec, adt⟩
  cases ak <;> cases ar <;> cases asec <;> cases adt <;>
    simp only [updated_header] at htoobig <;>
    simp only [update_images, hp, hsz, if_false, ite_false] <;>
    repeat' split
  all_goals
    first
      | (left; rfl)
      | (rename_i e heq; right; rw [slurp_section_error _ _ _ _ heq])
      | (rename_i e heq; right; rw [slurp_optional_error _ _ _ _ heq])

set_option maxRecDepth 10000 in
/-- C4 (counterexample): on the valid 16-byte container `c4borig` (page
size 4, one-page kernel, ramdisk and second stage), replacing only the
ramdisk with a ten-page payload makes the updated total 52 exceed the
backing, yet the program does not fail with the image-too-large error: it
aborts earlier, inside the slurp of the preserved second stage at the
new-layout offset 48 which lies past the 16-byte file (src/abootimg.c:
625-633 compute the slurp offset from the new layout, and the fread at
585-589 aborts), so the capacity check at 654-657 is never reached.  The
target is still unchanged on this path. -/
theorem write_too_large_read_aborts_first :
    check_boot_img_header c4bhdr c4borig.size = true ∧
    c4bhdr.page_size ≠ 0 ∧ c4borig.size ≠ 0 ∧
    total_size32 (updated_header c4bhdr c4bargs) > c4borig.size ∧
    (update_run hashC c4borig c4bhdr c4bargs).2.2 = some UpdErr.ReadOutOfRange ∧
    (update_run hashC c4borig c4bhdr c4bargs).2.2 ≠ some UpdErr.ImageTooLarge ∧
    (update_run hashC c4borig c4bhdr c4bargs).2.1 = c4borig ∧
    (update_run hashC c4borig c4bhdr c4bargs).1 = c4bhdr :=
  ⟨by decide, by decide, by decide, by decide, by decide, by decide, rfl, by decide⟩

/-- C4 (amended): for every container whose declared size is already set
(non-zero), if the total size computed from the updated header exceeds that
declared size and no preserved-section read runs out of range, the update
fails with the image-too-large error and the target container is returned
byte-for-byte unchanged: the capacity check in `update_images`
(src/abootimg.c:654-657) runs before `write_bootimg` is ever reached.
(When a preserved-section read does run out of range the program instead
aborts with a read error - still before any byte is written, see the
counterexample and `update_images_too_large`.) -/
theorem write_too_large_target_unchanged (hash : List Nat → List Nat)
    (c : Container) (h : BootImgHdr) (a : UpdateArgs)
    (hp : h.page_size ≠ 0) (hsz : c.size ≠ 0)
    (htoobig : total_size32 (updated_header h a) > c.size)
    (hreads : update_images c h a ≠ Except.error UpdErr.ReadOutOfRange) :
    update_run hash c h a = (h, c, some UpdErr.ImageTooLarge) := by
  rcases update_images_too_large c h a hp hsz htoobig with hcase | hcase
  · unfold update_run
    rw [hcase]
  · exact absurd hcase hreads

set_option maxRecDepth 10000 in
/-- C4 (witness): replacing the ramdisk of the 16-byte container `c4orig`
(whose kernel slurp is in range and which has no later preserved section)
with a five-page payload makes the updated total 28; the update fails with
`ImageTooLarge` and the container is returned unchanged. -/
theorem write_too_large_target_unchanged_witness :
    (c4hdr.page_size ≠ 0 ∧ c4orig.size ≠ 0 ∧
     total_size32 (updated_header c4hdr c4args) > c4orig.size ∧
     update_images c4orig c4hdr c4args ≠ Except.error UpdErr.ReadOutOfRange) ∧
    update_run hashC c4orig c4hdr c4args = (c4hdr, c4orig, some UpdErr.ImageTooLarge) :=
  ⟨⟨by decide, by decide, by decide, by decide⟩,
   write_too_large_target_unchanged hashC c4orig c4hdr c4args
     (by decide) (by decide) (by decide) (by decide)⟩

set_option maxRecDepth 10000 in
/-- C9 (code defect, evaluated at a failing input): setting `extra_cmdline`
to a 512-byte value - strictly shorter than the field's own 1024-byte
capacity - is rejected as a fatal error instead of being stored in full,
because the length check of the `extra_cmdline` branch compares against
`BOOT_ARGS_SIZE` (src/abootimg.c:465) while the branch's own error message
and copy use `BOOT_EXTRA_ARGS_SIZE`. -/
theorem extra_cmdline_spurious_reject :
    (List.replicate 512 97).length < BOOT_EXTRA_ARGS_SIZE ∧
    set_extra_cmdline hEx (List.replicate 512 97) = Except.error CfgErr.FieldTooLong ∧
    (∃ h2, set_cmdline hEx (List.replicate 511 97) = Except.ok h2) := by
  refine ⟨by decide, rfl, ⟨_, rfl⟩⟩

/-- C10: there is a header passing every other validation check (valid
magic, non-zero kernel and ramdisk sizes, power-of-two page_size) whose
32-bit total-size computation wraps around, so the computed total is
smaller than the exact page-rounded total and the total-versus-backing
comparison accepts a container whose real layout exceeds the backing
size. -/
theorem total_size32_wraps_and_accepts :
    ∃ (h : BootImgHdr) (sz : Nat),
      check_boot_img_header h sz = true ∧ (∃ k, h.page_size = 2 ^ k) ∧
      total_size32 h < total_size_spec h ∧ sz < total_size_spec h :=
  ⟨hOverflow, 4096, by decide, ⟨11, by decide⟩, by decide, by decide⟩
